import Mathlib

/-!
Shallow embedding of `src/usage_analyzer.py` (FastSwitch usage-data analyzer).

Modelling conventions:

* Python numbers (ints and floats) are modelled as exact rationals.  Every
  arithmetic step of the script (sums, true division, comparisons against the
  literals 0.7, 1, 20) is mirrored on rationals.
* A JSON object field read with a Python default (via dict `get`) is an
  `Option` field; `Option.getD` mirrors the default.  A field read by direct
  indexing (which raises `KeyError` when absent) is read through `req`, which
  produces an `Except.error`, mirroring the exception propagating to the
  top-level handler.
* A value whose Python truthiness is tested (`wellnessMetrics`,
  `dailyReflection`) is `Option` where `none` stands for the key being absent
  or bound to an empty (falsy) dict; the two are indistinguishable everywhere
  the script reads them, since all inner reads use `get` with defaults.
* The text the script prints is modelled as a list of structured `Line`
  values: one constructor per print statement (consecutive unconditional
  prints of one block are grouped into a single constructor carrying every
  dynamic datum).  Fixed literal text lives in the constructor itself.
* Exceptions abort the run: the model returns `Except.error`; the partial
  lines printed before the exception are abstracted away, while the final
  error message and the exit code are modelled faithfully.
* Python messages wrap quoted parts in single-quote characters; the modelled
  messages drop those quote characters but keep the message on one line.
* `sorted(..., key=..., reverse=True)` is a stable descending sort; it is
  modelled with `List.insertionSort` ordered by `b.2 ≤ a.2`, which is also
  stable descending, hence extensionally the same function.
* `datetime.now()` is modelled as an explicit parameter `now` measured in
  seconds; `datetime.strptime(s, %Y-%m-%d)` is `parseYMD` together with the
  civil-calendar day number `daysFromCivil` (midnight of the parsed day is
  `daysFromCivil y m d * 86400` seconds).
-/

/-- A record of `mateAndSugarRecords`; all fields are read with defaults. -/
structure MateRecord where
  mateAmount : Option ℚ
  sugarLevel : Option ℚ
  timestamp : Option String
  deriving DecidableEq, Repr

/-- A record of `exerciseRecords`; all fields are read with defaults. -/
structure ExerciseRecord where
  done : Option Bool
  duration : Option ℚ
  type : Option String
  deriving DecidableEq, Repr

/-- A record of `energyChecks`. -/
structure EnergyCheck where
  energyLevel : Option ℚ
  deriving DecidableEq, Repr

/-- The `dailyReflection` object. -/
structure Reflection where
  mood : Option String
  energyLevel : Option ℚ
  stressLevel : Option ℚ
  workQuality : Option String
  deriving DecidableEq, Repr

/-- The `wellnessMetrics` object of a day. -/
structure WellnessMetrics where
  mateAndSugarRecords : Option (List MateRecord)
  exerciseRecords : Option (List ExerciseRecord)
  energyChecks : Option (List EnergyCheck)
  dailyReflection : Option Reflection
  deriving DecidableEq, Repr

/-- The empty dict used as the fallback of `day.get(wellnessMetrics, {})`. -/
def WellnessMetrics.empty : WellnessMetrics := ⟨none, none, none, none⟩

/-- An element of `deepFocusSessions` or `continuousWorkSessions`; its
`duration` is read by direct indexing, so a missing one raises. -/
structure FocusSession where
  duration : Option ℚ
  deriving DecidableEq, Repr

/-- One value of the `dailyData` mapping.  `appUsage` is an app-to-seconds
dict, kept as an association list in insertion order. -/
structure DayRecord where
  totalSessionTime : Option ℚ
  totalBreakTime : Option ℚ
  callTime : Option ℚ
  appUsage : Option (List (String × ℚ))
  deepFocusSessions : Option (List FocusSession)
  continuousWorkSessions : Option (List FocusSession)
  wellnessMetrics : Option WellnessMetrics
  deriving DecidableEq, Repr

/-- The top-level JSON document; `dailyData` is a date-keyed mapping kept as
an association list in insertion order. -/
structure UsageExport where
  dailyData : Option (List (String × DayRecord))
  deriving DecidableEq, Repr

/-- Direct dict indexing: the value when present, a `KeyError` otherwise. -/
def req {α : Type} (o : Option α) (key : String) : Except String α :=
  match o with
  | some v => Except.ok v
  | none => Except.error ("KeyError: " ++ key)

instance {e a : Type} [DecidableEq e] [DecidableEq a] : DecidableEq (Except e a) := fun x y =>
  match x, y with
  | Except.ok v, Except.ok w =>
    if h : v = w then isTrue (by rw [h]) else isFalse (by intro hc; cases hc; exact h rfl)
  | Except.error v, Except.error w =>
    if h : v = w then isTrue (by rw [h]) else isFalse (by intro hc; cases hc; exact h rfl)
  | Except.ok _, Except.error _ => isFalse (by intro hc; cases hc)
  | Except.error _, Except.ok _ => isFalse (by intro hc; cases hc)

/-- Add `v` to the entry of `k` in an association list, appending a new entry
when `k` is absent.  This is the `defaultdict` / `get(k, 0) + v` update used
by the script; on lists with pairwise distinct keys (which is what a Python
dict yields) it updates the unique entry of `k`. -/
def bump {α : Type} [Add α] : List (String × α) → String → α → List (String × α)
  | [], k, v => [(k, v)]
  | p :: rest, k, v =>
    if p.1 = k then (p.1, p.2 + v) :: rest else p :: bump rest k v

/-- Decide whether a character is an ASCII digit. -/
def isDigitCh (c : Char) : Bool := decide ('0' ≤ c) && decide (c ≤ '9')

/-- Split a character list at every occurrence of `sep`, keeping empty
pieces, as Python `str.split(sep)` and `strptime` field splitting do. -/
def splitCh (sep : Char) : List Char → List (List Char)
  | [] => [[]]
  | c :: rest =>
    if c = sep then [] :: splitCh sep rest
    else
      match splitCh sep rest with
      | h :: t => (c :: h) :: t
      | [] => [[c]]

/-- Read a nonempty all-digit character list as a natural number. -/
def parseNatChars (l : List Char) : Option Nat :=
  if l ≠ [] && l.all isDigitCh then
    some (l.foldl (fun acc c => acc * 10 + (c.toNat - 48)) 0)
  else none

/-- Gregorian leap-year test. -/
def isLeap (y : Nat) : Bool := (y % 4 = 0 && y % 100 ≠ 0) || y % 400 = 0

/-- Number of days of month `m` of year `y`. -/
def daysInMonth (y m : Nat) : Nat :=
  if m = 2 then (if isLeap y then 29 else 28)
  else if m = 4 || m = 6 || m = 9 || m = 11 then 30
  else 31

/-- Calendar validity check performed by `strptime`. -/
def validYMD (y m d : Nat) : Bool :=
  1 ≤ m && m ≤ 12 && 1 ≤ d && d ≤ daysInMonth y m

/-- Parse a `%Y-%m-%d` date string into (year, month, day), `none` on any
string `strptime` rejects. -/
def parseYMD (s : String) : Option (Nat × Nat × Nat) :=
  match splitCh ('-') s.toList with
  | [ys, ms, ds] =>
    match parseNatChars ys, parseNatChars ms, parseNatChars ds with
    | some y, some m, some d => if validYMD y m d then some (y, m, d) else none
    | _, _, _ => none
  | _ => none

/-- Day number of a civil date, with day 0 at 1970-01-01 (the standard
days-from-civil computation; all intermediate quantities are nonnegative for
years from 1 on, so the divisions agree with mathematical floor). -/
def daysFromCivil (y m d : Nat) : Int :=
  let yi : Int := if m ≤ 2 then (y : Int) - 1 else (y : Int)
  let era : Int := (if 0 ≤ yi then yi else yi - 399) / 400
  let yoe : Int := yi - era * 400
  let mp : Int := ((m : Int) + 9) % 12
  let doy : Int := (153 * mp + 2) / 5 + (d : Int) - 1
  let doe : Int := yoe * 365 + yoe / 4 - yoe / 100 + doy
  era * 146097 + doe - 719468

/-- Weekday names in the order of the `days_order` list of the script. -/
def daysOrder : List String :=
  ["Monday", "Tuesday", "Wednesday", "Thursday", "Friday", "Saturday", "Sunday"]

/-- The `%A` weekday name of a date (1970-01-01 is a Thursday). -/
def weekdayName (ymd : Nat × Nat × Nat) : String :=
  (daysOrder.getD (((daysFromCivil ymd.1 ymd.2.1 ymd.2.2 + 3) % 7).toNat) (""))

/-- One print statement of the script, with its dynamic data.  Consecutive
unconditional prints of one block are grouped into one constructor. -/
inductive Line where
  | noUsageData
  | usageHeader
  | basicStats (days : Nat) (session breakT call : ℚ)
  | avgDaily (q : ℚ)
  | topAppsHeader
  | appLine (rank : Nat) (name : String) (time pct : ℚ)
  | deepFocus (count : Nat) (total avg : ℚ)
  | workPatterns (count : Nat) (longest avg : ℚ)
  | weeklyHeader
  | weeklyDay (name : String) (avg : ℚ)
  | wellnessHeader
  | mateBlock (reports : Nat) (avgMate avgSugar : ℚ)
  | mateTrend (reducing : Bool)
  | exerciseBlock (reports exDays : Nat) (rate : ℚ)
  | exerciseAvgDur (avg : ℚ)
  | intensityHeader
  | intensityLine (name : String) (count : Nat)
  | energyBlock (reports : Nat) (avg : ℚ) (low high : Nat)
  | moodHeader (reflectionDays : Nat)
  | moodLine (mood : String) (count : Nat)
  | moodAvg (energy stress : ℚ)
  | qualityHeader
  | qualityLine (quality : String) (count : Nat)
  | corrHeader
  | corrAnalyzed (days : Nat)
  | highProd (days : Nat) (mate energy exRate : ℚ)
  | lowProd (days : Nat) (mate energy exRate : ℚ)
  | insightsHeader
  | insightEnergy
  | insightExercise
  | insightMate (higher : Bool)
  | filterNote (n : Int) (count : Nat)
  | noWellnessShort
  | noWellnessCorr
  | noWellnessFull
  | errFileNotFound (path : String)
  | errInvalidJson (path : String)
  | errOther (msg : String)
  deriving DecidableEq, Repr

/-- The `wellnessMetrics` dict of a day, defaulted to the empty dict. -/
def wellOf (d : DayRecord) : WellnessMetrics :=
  d.wellnessMetrics.getD WellnessMetrics.empty

/-- Concatenate the `mateAndSugarRecords` of every day, in day order. -/
def collectMate (daily : List (String × DayRecord)) : List MateRecord :=
  daily.foldl (fun acc kv => acc ++ ((wellOf kv.2).mateAndSugarRecords.getD [])) []

/-- Concatenate the `exerciseRecords` of every day, in day order. -/
def collectExercise (daily : List (String × DayRecord)) : List ExerciseRecord :=
  daily.foldl (fun acc kv => acc ++ ((wellOf kv.2).exerciseRecords.getD [])) []

/-- Concatenate the `energyChecks` of every day, in day order. -/
def collectEnergy (daily : List (String × DayRecord)) : List EnergyCheck :=
  daily.foldl (fun acc kv => acc ++ ((wellOf kv.2).energyChecks.getD [])) []

/-- The mood record the script builds from a truthy `dailyReflection`. -/
structure MoodRec where
  mood : String
  energy : ℚ
  stress : ℚ
  quality : String
  deriving DecidableEq, Repr

/-- Collect one `MoodRec` per day with a truthy `dailyReflection`. -/
def collectMoods (daily : List (String × DayRecord)) : List MoodRec :=
  daily.foldl (fun acc kv =>
    match (wellOf kv.2).dailyReflection with
    | some r =>
        acc ++ [⟨r.mood.getD (""), r.energyLevel.getD 0, r.stressLevel.getD 0,
                 r.workQuality.getD ("")⟩]
    | none => acc) []

/-- Number of days with a truthy `dailyReflection`. -/
def reflectionDaysOf (daily : List (String × DayRecord)) : Nat :=
  (daily.filter (fun kv => (wellOf kv.2).dailyReflection.isSome)).length

/-- The per-date mate totals dict, keyed by the first ten characters of each
timestamp, skipping records whose extracted date is the empty string. -/
def mateDailyTotals (rs : List MateRecord) : List (String × ℚ) :=
  rs.foldl (fun acc r =>
    let date := String.mk ((r.timestamp.getD ("")).toList.take 10)
    if date = "" then acc else bump acc date (r.mateAmount.getD 0)) []

/-- The mate-and-sugar block of the wellness report. -/
def mateLines (rs : List MateRecord) : List Line :=
  if rs.isEmpty then [] else
    let totalMate := (rs.map (fun r => r.mateAmount.getD 0)).sum
    let totalSugar := (rs.map (fun r => r.sugarLevel.getD 0)).sum
    let dmt := mateDailyTotals rs
    [Line.mateBlock rs.length (totalMate / (rs.length : ℚ)) (totalSugar / (rs.length : ℚ))]
      ++ (if 1 < dmt.length then
            [Line.mateTrend (decide ((dmt.getLastD ("", 0)).2 < (dmt.headD ("", 0)).2))]
          else [])

/-- The exercise records flagged done (with the `False` default). -/
def doneRecords (rs : List ExerciseRecord) : List ExerciseRecord :=
  rs.filter (fun r => r.done.getD false)

/-- The intensity tally: the four fixed buckets first, then any further
type string a record carries, appended in first-occurrence order. -/
def intensityCounts (rs : List ExerciseRecord) : List (String × Nat) :=
  rs.foldl (fun acc r => bump acc (r.type.getD ("none")) 1)
    [("none", 0), ("light", 0), ("moderate", 0), ("intense", 0)]

/-- The exercise block of the wellness report. -/
def exerciseLines (rs : List ExerciseRecord) : List Line :=
  if rs.isEmpty then [] else
    let exDays := (doneRecords rs).length
    let totalDur := ((doneRecords rs).map (fun r => r.duration.getD 0)).sum
    [Line.exerciseBlock rs.length exDays ((exDays : ℚ) / (rs.length : ℚ) * 100)]
      ++ (if 0 < exDays then [Line.exerciseAvgDur (totalDur / (exDays : ℚ))] else [])
      ++ [Line.intensityHeader]
      ++ ((intensityCounts rs).filter (fun p => 0 < p.2)).map
          (fun p => Line.intensityLine p.1 p.2)

/-- The energy block of the wellness report. -/
def energyLines (rs : List EnergyCheck) : List Line :=
  if rs.isEmpty then [] else
    let lv := rs.map (fun r => r.energyLevel.getD 0)
    [Line.energyBlock rs.length (lv.sum / (rs.length : ℚ))
      (lv.filter (fun x => x ≤ 4)).length (lv.filter (fun x => 7 ≤ x)).length]

/-- The mood-and-reflection block of the wellness report. -/
def moodLines (reflectionDays : Nat) (ms : List MoodRec) : List Line :=
  if ms.isEmpty then [] else
    let mc := ms.foldl (fun acc m => bump acc m.mood 1) []
    let qc := ms.foldl (fun acc m => bump acc m.quality 1) []
    [Line.moodHeader reflectionDays]
      ++ mc.map (fun p => Line.moodLine p.1 p.2)
      ++ [Line.moodAvg ((ms.map (fun m => m.energy)).sum / (ms.length : ℚ))
            ((ms.map (fun m => m.stress)).sum / (ms.length : ℚ))]
      ++ [Line.qualityHeader]
      ++ qc.map (fun p => Line.qualityLine p.1 p.2)

/-- The whole wellness report (`analyze_wellness_data`); it never raises. -/
def analyzeWellnessData (daily : List (String × DayRecord)) : List Line :=
  Line.wellnessHeader ::
    (mateLines (collectMate daily)
      ++ exerciseLines (collectExercise daily)
      ++ energyLines (collectEnergy daily)
      ++ moodLines (reflectionDaysOf daily) (collectMoods daily))

/-- The per-day scalar tuple built by `analyze_correlations`. -/
structure CorrEntry where
  session_time : ℚ
  mate_total : ℚ
  exercise_done : Bool
  avg_energy : ℚ
  mood_score : ℚ
  deriving DecidableEq, Repr

/-- The fixed mood-to-score mapping, defaulting unknown moods to 3. -/
def moodScoreOf (m : String) : ℚ :=
  if m = "productive" then 4
  else if m = "balanced" then 3
  else if m = "tired" then 2
  else if m = "stressed" then 1
  else 3

/-- Build the correlation tuple of one day record. -/
def corrEntry (d : DayRecord) : CorrEntry :=
  let w := wellOf d
  { session_time := d.totalSessionTime.getD 0
    mate_total := ((w.mateAndSugarRecords.getD []).map (fun r => r.mateAmount.getD 0)).sum
    exercise_done := (w.exerciseRecords.getD []).any (fun r => r.done.getD false)
    avg_energy :=
      ((w.energyChecks.getD []).map (fun r => r.energyLevel.getD 0)).sum
        / ((max (w.energyChecks.getD []).length 1 : Nat) : ℚ)
    mood_score :=
      moodScoreOf ((w.dailyReflection.getD ⟨none, none, none, none⟩).mood.getD ("balanced")) }

/-- The correlation tuples of every day, in day order. -/
def corrEntries (daily : List (String × DayRecord)) : List CorrEntry :=
  daily.map (fun kv => corrEntry kv.2)

/-- Mean session time over the correlation tuples. -/
def sessionMean (cs : List CorrEntry) : ℚ :=
  (cs.map (fun c => c.session_time)).sum / (cs.length : ℚ)

/-- Days with session time strictly above the mean. -/
def highSet (cs : List CorrEntry) : List CorrEntry :=
  cs.filter (fun c => sessionMean cs < c.session_time)

/-- Days with session time strictly below 7/10 of the mean. -/
def lowSet (cs : List CorrEntry) : List CorrEntry :=
  cs.filter (fun c => c.session_time < sessionMean cs * (7 / 10))

/-- Average `mate_total` over a set of tuples. -/
def avgMateOf (l : List CorrEntry) : ℚ :=
  (l.map (fun c => c.mate_total)).sum / (l.length : ℚ)

/-- Average `avg_energy` over a set of tuples. -/
def avgEnergyOf (l : List CorrEntry) : ℚ :=
  (l.map (fun c => c.avg_energy)).sum / (l.length : ℚ)

/-- Exercise rate of a set of tuples, in percent. -/
def exRateOf (l : List CorrEntry) : ℚ :=
  ((l.filter (fun c => c.exercise_done)).length : ℚ) / (l.length : ℚ) * 100

/-- The correlation report (`analyze_correlations`).  Its header is printed
before the three-day gate; with a nonempty low set but an empty high set the
insight block reads the never-assigned high-set averages and raises a
`NameError`. -/
def analyzeCorrelations (daily : List (String × DayRecord)) : Except String (List Line) :=
  let cs := corrEntries daily
  if 3 ≤ cs.length then
    let high := highSet cs
    let low := lowSet cs
    let highLines :=
      if high.isEmpty then []
      else [Line.highProd high.length (avgMateOf high) (avgEnergyOf high) (exRateOf high)]
    if low.isEmpty then
      Except.ok ([Line.corrHeader, Line.corrAnalyzed cs.length] ++ highLines)
    else if high.isEmpty then
      Except.error ("NameError: name avg_energy_high is not defined")
    else
      let insights :=
        (if avgEnergyOf low + 1 < avgEnergyOf high then [Line.insightEnergy] else [])
          ++ (if exRateOf low + 20 < exRateOf high then [Line.insightExercise] else [])
          ++ (if 1 < |avgMateOf high - avgMateOf low| then
                [Line.insightMate (decide (avgMateOf low < avgMateOf high))]
              else [])
      Except.ok ([Line.corrHeader, Line.corrAnalyzed cs.length] ++ highLines
        ++ [Line.lowProd low.length (avgMateOf low) (avgEnergyOf low) (exRateOf low)]
        ++ [Line.insightsHeader] ++ insights)
  else Except.ok [Line.corrHeader]

/-- Simplified app name: the part after the last dot when the identifier
contains a dot, the identifier itself otherwise. -/
def simplifyName (app : String) : String :=
  if app.toList.contains ('.') then String.mk ((splitCh ('.') app.toList).getLastD app.toList)
  else app

/-- Aggregate `appUsage` across every day into one dict, in first-touch
insertion order (the `defaultdict(float)` of the script). -/
def aggApps (daily : List (String × DayRecord)) : List (String × ℚ) :=
  daily.foldl (fun acc kv =>
    (kv.2.appUsage.getD []).foldl (fun a p => bump a p.1 p.2) acc) []

/-- The descending-by-time order used on aggregated apps. -/
def appGE (a b : String × ℚ) : Prop := b.2 ≤ a.2

instance : DecidableRel appGE := fun a b => inferInstanceAs (Decidable (b.2 ≤ a.2))

/-- The aggregated apps sorted by total time, descending and stable, as
`sorted(..., key=lambda x: x[1], reverse=True)` produces. -/
def sortedApps (daily : List (String × DayRecord)) : List (String × ℚ) :=
  (aggApps daily).insertionSort appGE

/-- Percentage of total session time, 0 when the total is not positive. -/
def appPct (time total : ℚ) : ℚ := if 0 < total then time / total * 100 else 0

/-- The top-applications block of the usage summary. -/
def appLinesOf (daily : List (String × DayRecord)) (totalSession : ℚ) : List Line :=
  if (aggApps daily).isEmpty then [] else
    Line.topAppsHeader ::
      ((sortedApps daily).take 10).enum.map (fun p =>
        Line.appLine (p.1 + 1) (simplifyName p.2.1) p.2.2 (appPct p.2.2 totalSession))

/-- Concatenate the `deepFocusSessions` of every day, in day order. -/
def collectFocus (daily : List (String × DayRecord)) : List FocusSession :=
  daily.foldl (fun acc kv => acc ++ (kv.2.deepFocusSessions.getD [])) []

/-- Concatenate the `continuousWorkSessions` of every day, in day order. -/
def collectContinuous (daily : List (String × DayRecord)) : List FocusSession :=
  daily.foldl (fun acc kv => acc ++ (kv.2.continuousWorkSessions.getD [])) []

/-- Sum a required numeric field over every day, raising a `KeyError` at the
first day where the field is absent. -/
def sumField : List (String × DayRecord) → (DayRecord → Option ℚ) → String → Except String ℚ
  | [], _, _ => Except.ok 0
  | kv :: rest, f, key => do
      let v ← req (f kv.2) key
      let s ← sumField rest f key
      Except.ok (v + s)

/-- The durations of a session list, raising on a session with no duration. -/
def durationsOf : List FocusSession → Except String (List ℚ)
  | [] => Except.ok []
  | s :: rest => do
      let d ← req s.duration ("duration")
      let ds ← durationsOf rest
      Except.ok (d :: ds)

/-- The deep-focus block of the usage summary. -/
def focusLines (ss : List FocusSession) : Except String (List Line) :=
  if ss.isEmpty then Except.ok [] else do
    let ds ← durationsOf ss
    Except.ok [Line.deepFocus ss.length ds.sum (ds.sum / (ss.length : ℚ))]

/-- The work-patterns block of the usage summary.  The list is nonempty when
this block is built, so the `max?` default is never read. -/
def patternLines (ss : List FocusSession) : Except String (List Line) :=
  if ss.isEmpty then Except.ok [] else do
    let ds ← durationsOf ss
    Except.ok [Line.workPatterns ss.length (ds.max?.getD 0) (ds.sum / (ss.length : ℚ))]

/-- The `strptime` failure message used for malformed date keys. -/
def strptimeMsg : String := "ValueError: time data does not match format"

/-- Weekday-name / session-time pairs of every day, raising on a malformed
date key or a day with no `totalSessionTime`. -/
def weekPairs : List (String × DayRecord) → Except String (List (String × ℚ))
  | [] => Except.ok []
  | kv :: rest =>
    match parseYMD kv.1 with
    | none => Except.error strptimeMsg
    | some ymd => do
        let s ← req kv.2.totalSessionTime ("totalSessionTime")
        let ps ← weekPairs rest
        Except.ok ((weekdayName ymd, s) :: ps)

/-- The approximate divisor of a weekday bucket: occurrences of that weekday
within the range, as the script approximates it from the day count and the
index of the weekday in `days_order`. -/
def weekDivisor (totalDays idx : Nat) : Nat :=
  totalDays / 7 + (if idx < totalDays % 7 then 1 else 0)

/-- The weekly-patterns block, only built when at least 7 days are present. -/
def weeklyLines (daily : List (String × DayRecord)) : Except String (List Line) :=
  if 7 ≤ daily.length then do
    let pairs ← weekPairs daily
    let wt := pairs.foldl (fun acc p => bump acc p.1 p.2) []
    Except.ok (Line.weeklyHeader :: daysOrder.enum.filterMap (fun p =>
      (wt.find? (fun q => q.1 = p.2)).map (fun q =>
        Line.weeklyDay p.2 (q.2 / ((weekDivisor daily.length p.1 : Nat) : ℚ)))))
  else Except.ok []

/-- The usage summary (`analyze_usage_data`), applied to the day mapping the
script reads back out of `data` after the optional day filter. -/
def analyzeUsageData (daily : List (String × DayRecord)) : Except String (List Line) :=
  if daily.isEmpty then Except.ok [Line.noUsageData]
  else do
    let ts ← sumField daily (fun d => d.totalSessionTime) ("totalSessionTime")
    let tb ← sumField daily (fun d => d.totalBreakTime) ("totalBreakTime")
    let tc ← sumField daily (fun d => d.callTime) ("callTime")
    let n := daily.length
    let avgL := if 0 < n then [Line.avgDaily (ts / (n : ℚ))] else []
    let fL ← focusLines (collectFocus daily)
    let pL ← patternLines (collectContinuous daily)
    let wL ← weeklyLines daily
    Except.ok ([Line.usageHeader, Line.basicStats n ts tb tc]
      ++ avgL ++ appLinesOf daily ts ++ fL ++ pL ++ wL)

/-- The parsed command line of the script. -/
structure Args where
  file : String
  summary : Bool
  wellnessOnly : Bool
  correlations : Bool
  days : Option Int
  deriving DecidableEq, Repr

/-- Outcome of opening and JSON-parsing the input file. -/
inductive FileOutcome where
  | notFound
  | invalidJson
  | ok (data : UsageExport)
  deriving DecidableEq, Repr

/-- Whether a day key is kept by the `--days` filter: its date parses and its
midnight is at or after `now` minus `n` days of seconds. -/
def inRangeB (now : ℚ) (n : Int) (kv : String × DayRecord) : Bool :=
  match parseYMD kv.1 with
  | some ymd =>
      decide (now - (n : ℚ) * 86400 ≤ (daysFromCivil ymd.1 ymd.2.1 ymd.2.2 : ℚ) * 86400)
  | none => false

/-- The `--days` dict comprehension: keep the in-range days, raising at the
first malformed date key. -/
def filterDays (now : ℚ) (n : Int) : List (String × DayRecord) → Except String (List (String × DayRecord))
  | [] => Except.ok []
  | kv :: rest =>
    match parseYMD kv.1 with
    | none => Except.error strptimeMsg
    | some _ => (filterDays now n rest).map (fun r => if inRangeB now n kv then kv :: r else r)

/-- Truthiness of some `wellnessMetrics` across the days. -/
def hasWellnessData (daily : List (String × DayRecord)) : Bool :=
  daily.any (fun kv => kv.2.wellnessMetrics.isSome)

/-- The dispatch of `main` on the mode flags, applied after the optional
`--days` filter produced the day mapping `daily` and the filter note. -/
def dispatchModes (args : Args) (daily : List (String × DayRecord)) (note : List Line) :
    Except String (List Line) :=
  let hw := hasWellnessData daily
  if args.wellnessOnly then
    Except.ok (note ++ (if hw then analyzeWellnessData daily else [Line.noWellnessShort]))
  else if args.correlations then
    if hw then do
      let c ← analyzeCorrelations daily
      Except.ok (note ++ c)
    else Except.ok (note ++ [Line.noWellnessCorr])
  else do
    let u ← analyzeUsageData daily
    if hw then do
      let c ← analyzeCorrelations daily
      Except.ok (note ++ u ++ analyzeWellnessData daily ++ c)
    else Except.ok (note ++ u ++ [Line.noWellnessFull])

/-- The optional `--days` filter step of `main`: skipped when the flag is
absent or 0, since `if args.days:` is false then; otherwise the day mapping
is filtered and the script prints the filter note. -/
def filterStep (args : Args) (daily0 : List (String × DayRecord)) (now : ℚ) :
    Except String (List (String × DayRecord) × List Line) :=
  match args.days with
  | some n =>
    if n ≠ 0 then
      (filterDays now n daily0).map (fun f => (f, [Line.filterNote n f.length]))
    else Except.ok (daily0, ([] : List Line))
  | none => Except.ok (daily0, ([] : List Line))

/-- The body of `main` after the file is read and parsed: the optional
`--days` filter, then the dispatch on the mode flags. -/
def runAnalysis (args : Args) (data : UsageExport) (now : ℚ) : Except String (List Line) := do
  let start ← filterStep args (data.dailyData.getD []) now
  dispatchModes args start.1 start.2

/-- The whole run: output lines and exit code.  The three `except` arms of
the script print one message and exit with status 1; otherwise the process
ends with status 0. -/
def runMain (args : Args) (file : FileOutcome) (now : ℚ) : List Line × Nat :=
  match file with
  | FileOutcome.notFound => ([Line.errFileNotFound args.file], 1)
  | FileOutcome.invalidJson => ([Line.errInvalidJson args.file], 1)
  | FileOutcome.ok data =>
    match runAnalysis args data now with
    | Except.ok lines => (lines, 0)
    | Except.error e => ([Line.errOther e], 1)

/-- The one-line user-facing message of an error line, `none` on any line
that is not one of the three error messages. -/
def errRender : Line → Option String
  | Line.errFileNotFound p => some ("Error: File " ++ p ++ " not found.")
  | Line.errInvalidJson p => some ("Error: Invalid JSON file " ++ p ++ ".")
  | Line.errOther e => some ("Error: " ++ e)
  | _ => none

/-- A string with no newline character. -/
def oneLine (s : String) : Bool := s.toList.all (fun c => c ≠ '\n')

/-- Fill the optional fields of a mate record with the defaults the script
uses when reading them. -/
def MateRecord.fill (r : MateRecord) : MateRecord :=
  ⟨some (r.mateAmount.getD 0), some (r.sugarLevel.getD 0), some (r.timestamp.getD (""))⟩

/-- Fill the optional fields of an exercise record with the script defaults. -/
def ExerciseRecord.fill (r : ExerciseRecord) : ExerciseRecord :=
  ⟨some (r.done.getD false), some (r.duration.getD 0), some (r.type.getD ("none"))⟩

/-- Fill the optional field of an energy check with the script default. -/
def EnergyCheck.fill (r : EnergyCheck) : EnergyCheck :=
  ⟨some (r.energyLevel.getD 0)⟩

/-- Fill the optional fields of a reflection with the defaults of the
wellness pass; a missing mood is also read as the score-3 default by the
correlation pass, and the empty string scores 3 as well. -/
def Reflection.fill (r : Reflection) : Reflection :=
  ⟨some (r.mood.getD ("")), some (r.energyLevel.getD 0), some (r.stressLevel.getD 0),
   some (r.workQuality.getD (""))⟩

/-- Fill every optional field under `wellnessMetrics` with the script
defaults.  The truthy/falsy status of `dailyReflection` is preserved. -/
def WellnessMetrics.fill (w : WellnessMetrics) : WellnessMetrics :=
  ⟨some ((w.mateAndSugarRecords.getD []).map MateRecord.fill),
   some ((w.exerciseRecords.getD []).map ExerciseRecord.fill),
   some ((w.energyChecks.getD []).map EnergyCheck.fill),
   w.dailyReflection.map Reflection.fill⟩

/-- Fill every semantically optional field of a day record with the script
defaults.  The three required time fields and the session durations are left
untouched (the script indexes them directly), and the truthy/falsy status of
`wellnessMetrics` is preserved. -/
def DayRecord.fill (d : DayRecord) : DayRecord :=
  ⟨d.totalSessionTime, d.totalBreakTime, d.callTime,
   some (d.appUsage.getD []),
   some (d.deepFocusSessions.getD []),
   some (d.continuousWorkSessions.getD []),
   d.wellnessMetrics.map WellnessMetrics.fill⟩

/-- Fill the optional fields of every day of a day mapping. -/
def mapFill (daily : List (String × DayRecord)) : List (String × DayRecord) :=
  daily.map (fun kv => (kv.1, kv.2.fill))

/-- Total time booked for key `a` in an association list (its dict value when
keys are pairwise distinct). -/
def lookupTotal (l : List (String × ℚ)) (a : String) : ℚ :=
  ((l.filter (fun p => p.1 = a)).map (fun p => p.2)).sum

/-- Total time of app `a` summed over the `appUsage` of every day. -/
def totalAppTime (daily : List (String × DayRecord)) (a : String) : ℚ :=
  (daily.map (fun kv => lookupTotal (kv.2.appUsage.getD []) a)).sum

section Helpers

/-- Keys of an association list. -/
def keysOf {α : Type} (l : List (String × α)) : List String := l.map (fun p => p.1)

/-- Sum of the values of an association list. -/
def valsSum {α : Type} [AddCommMonoid α] (l : List (String × α)) : α :=
  (l.map (fun p => p.2)).sum

theorem valsSum_bump {α : Type} [AddCommMonoid α] (l : List (String × α)) (k : String) (v : α) :
    valsSum (bump l k v) = valsSum l + v := by
  induction l with
  | nil => simp [bump, valsSum]
  | cons p rest ih =>
    by_cases h : p.1 = k
    · simp [bump, h, valsSum, add_assoc, add_comm v]
    · simp [bump, h, valsSum] at ih ⊢
      rw [ih, add_assoc]

theorem keysOf_bump_subset {α : Type} [Add α] (l : List (String × α)) (k x : String) (v : α)
    (hx : x ∈ keysOf (bump l k v)) : x = k ∨ x ∈ keysOf l := by
  induction l with
  | nil => simpa [bump, keysOf] using hx
  | cons p rest ih =>
    by_cases h : p.1 = k
    · simp [bump, h, keysOf] at hx ⊢
      tauto
    · simp [bump, h, keysOf] at hx ⊢
      rcases hx with hx | hx
      · tauto
      · rcases ih (by simpa [keysOf] using hx) with h2 | h2
        · tauto
        · simp [keysOf] at h2; tauto

theorem keysOf_bump_mem {α : Type} [Add α] (l : List (String × α)) (k x : String) (v : α)
    (hx : x ∈ keysOf l) : x ∈ keysOf (bump l k v) := by
  induction l with
  | nil => simp [keysOf] at hx
  | cons p rest ih =>
    by_cases h : p.1 = k
    · simpa [bump, h, keysOf] using hx
    · simp [bump, h, keysOf] at hx ⊢
      rcases hx with hx | hx
      · tauto
      · exact Or.inr (by simpa [keysOf] using ih (by simpa [keysOf] using hx))

theorem lookupTotal_cons (p : String × ℚ) (l : List (String × ℚ)) (a : String) :
    lookupTotal (p :: l) a = (if p.1 = a then p.2 else 0) + lookupTotal l a := by
  by_cases h : p.1 = a <;> simp [lookupTotal, List.filter_cons, h]

theorem lookupTotal_bump (l : List (String × ℚ)) (k : String) (v : ℚ) (a : String) :
    lookupTotal (bump l k v) a = lookupTotal l a + (if k = a then v else 0) := by
  induction l with
  | nil =>
    by_cases h : k = a <;> simp [bump, lookupTotal, List.filter_cons, h]
  | cons p rest ih =>
    by_cases h : p.1 = k
    · subst h
      by_cases h2 : p.1 = a <;>
        simp [bump, lookupTotal_cons, h2, add_assoc, add_comm v]
    · simp [bump, h, lookupTotal_cons, ih, add_assoc]

theorem lookupTotal_foldl_bump (l : List (String × ℚ)) (acc : List (String × ℚ)) (a : String) :
    lookupTotal (l.foldl (fun ac p => bump ac p.1 p.2) acc) a
      = lookupTotal acc a + lookupTotal l a := by
  induction l generalizing acc with
  | nil => simp [lookupTotal]
  | cons p rest ih =>
    simp only [List.foldl_cons, ih, lookupTotal_bump, lookupTotal_cons]
    ring

end Helpers

section Aggregation

theorem aggApps_foldl (daily : List (String × DayRecord)) (acc : List (String × ℚ)) (a : String) :
    lookupTotal (daily.foldl (fun ac kv =>
        (kv.2.appUsage.getD []).foldl (fun b p => bump b p.1 p.2) ac) acc) a
      = lookupTotal acc a + totalAppTime daily a := by
  induction daily generalizing acc with
  | nil => simp [totalAppTime, lookupTotal]
  | cons kv rest ih =>
    simp only [List.foldl_cons, ih, lookupTotal_foldl_bump, totalAppTime, List.map_cons,
      List.sum_cons]
    ring

/-- The aggregated total of an app equals the sum over days of the time the
appUsage of that day books for it. -/
theorem aggApps_lookup (daily : List (String × DayRecord)) (a : String) :
    lookupTotal (aggApps daily) a = totalAppTime daily a := by
  simpa [lookupTotal] using aggApps_foldl daily [] a

instance : IsTotal (String × ℚ) appGE := ⟨fun a b => le_total b.2 a.2⟩

instance : IsTrans (String × ℚ) appGE := ⟨fun _ _ _ h1 h2 => le_trans h2 h1⟩

theorem sortedApps_sorted (daily : List (String × DayRecord)) :
    (sortedApps daily).Sorted appGE :=
  List.sorted_insertionSort appGE (aggApps daily)

theorem sortedApps_perm (daily : List (String × DayRecord)) :
    (sortedApps daily).Perm (aggApps daily) :=
  List.perm_insertionSort appGE (aggApps daily)

end Aggregation

section Intensity

theorem intensity_foldl_sum (rs : List ExerciseRecord) (acc : List (String × Nat)) :
    valsSum (rs.foldl (fun ac r => bump ac (r.type.getD ("none")) 1) acc)
      = valsSum acc + rs.length := by
  induction rs generalizing acc with
  | nil => simp
  | cons r rest ih =>
    simp only [List.foldl_cons, ih, valsSum_bump, List.length_cons]
    omega

/-- Every record is tallied exactly once: the tallies add up to the number of
exercise records. -/
theorem intensity_total (rs : List ExerciseRecord) :
    valsSum (intensityCounts rs) = rs.length := by
  simpa [intensityCounts, valsSum] using intensity_foldl_sum rs
    [("none", 0), ("light", 0), ("moderate", 0), ("intense", 0)]

theorem intensity_foldl_keys (rs : List ExerciseRecord) (acc : List (String × Nat)) (x : String)
    (hx : x ∈ keysOf (rs.foldl (fun ac r => bump ac (r.type.getD ("none")) 1) acc)) :
    x ∈ keysOf acc ∨ x ∈ rs.map (fun r => r.type.getD ("none")) := by
  induction rs generalizing acc with
  | nil => exact Or.inl hx
  | cons r rest ih =>
    rcases ih (bump acc (r.type.getD ("none")) 1) hx with h | h
    · rcases keysOf_bump_subset acc (r.type.getD ("none")) x 1 h with h2 | h2
      · right; simp [h2]
      · exact Or.inl h2
    · right; simp [h]

/-- Every bucket key is one of the four fixed intensities or the type string
of some record. -/
theorem intensity_keys (rs : List ExerciseRecord) (x : String)
    (hx : x ∈ keysOf (intensityCounts rs)) :
    x ∈ ["none", "light", "moderate", "intense"]
      ∨ x ∈ rs.map (fun r => r.type.getD ("none")) := by
  rcases intensity_foldl_keys rs _ x hx with h | h
  · left; simpa [keysOf] using h
  · exact Or.inr h

theorem intensity_foldl_mem (rs : List ExerciseRecord) (acc : List (String × Nat)) (x : String)
    (hx : x ∈ keysOf acc) :
    x ∈ keysOf (rs.foldl (fun ac r => bump ac (r.type.getD ("none")) 1) acc) := by
  induction rs generalizing acc with
  | nil => exact hx
  | cons r rest ih =>
    exact ih _ (keysOf_bump_mem acc (r.type.getD ("none")) x 1 hx)

/-- The four fixed buckets are always present in the tally. -/
theorem intensity_fixed (rs : List ExerciseRecord) (x : String)
    (hx : x ∈ ["none", "light", "moderate", "intense"]) :
    x ∈ keysOf (intensityCounts rs) := by
  refine intensity_foldl_mem rs _ x ?_
  simpa [keysOf] using hx

end Intensity

section FillLemmas

@[simp] theorem fill_totalSessionTime (d : DayRecord) :
    (DayRecord.fill d).totalSessionTime = d.totalSessionTime := rfl

@[simp] theorem fill_totalBreakTime (d : DayRecord) :
    (DayRecord.fill d).totalBreakTime = d.totalBreakTime := rfl

@[simp] theorem fill_callTime (d : DayRecord) :
    (DayRecord.fill d).callTime = d.callTime := rfl

@[simp] theorem fill_appUsage (d : DayRecord) :
    (DayRecord.fill d).appUsage.getD [] = d.appUsage.getD [] := by
  cases h : d.appUsage <;> simp [DayRecord.fill, h]

@[simp] theorem fill_deepFocus (d : DayRecord) :
    (DayRecord.fill d).deepFocusSessions.getD [] = d.deepFocusSessions.getD [] := by
  cases h : d.deepFocusSessions <;> simp [DayRecord.fill, h]

@[simp] theorem fill_continuous (d : DayRecord) :
    (DayRecord.fill d).continuousWorkSessions.getD [] = d.continuousWorkSessions.getD [] := by
  cases h : d.continuousWorkSessions <;> simp [DayRecord.fill, h]

@[simp] theorem fill_mateRecords (d : DayRecord) :
    (wellOf (DayRecord.fill d)).mateAndSugarRecords.getD []
      = ((wellOf d).mateAndSugarRecords.getD []).map MateRecord.fill := by
  cases h : d.wellnessMetrics <;>
    simp [DayRecord.fill, wellOf, WellnessMetrics.fill, WellnessMetrics.empty, h]

@[simp] theorem fill_exerciseRecords (d : DayRecord) :
    (wellOf (DayRecord.fill d)).exerciseRecords.getD []
      = ((wellOf d).exerciseRecords.getD []).map ExerciseRecord.fill := by
  cases h : d.wellnessMetrics <;>
    simp [DayRecord.fill, wellOf, WellnessMetrics.fill, WellnessMetrics.empty, h]

@[simp] theorem fill_energyChecks (d : DayRecord) :
    (wellOf (DayRecord.fill d)).energyChecks.getD []
      = ((wellOf d).energyChecks.getD []).map EnergyCheck.fill := by
  cases h : d.wellnessMetrics <;>
    simp [DayRecord.fill, wellOf, WellnessMetrics.fill, WellnessMetrics.empty, h]

@[simp] theorem fill_reflection (d : DayRecord) :
    (wellOf (DayRecord.fill d)).dailyReflection
      = ((wellOf d).dailyReflection).map Reflection.fill := by
  cases h : d.wellnessMetrics <;>
    simp [DayRecord.fill, wellOf, WellnessMetrics.fill, WellnessMetrics.empty, h]

@[simp] theorem fill_wellness_isSome (d : DayRecord) :
    (DayRecord.fill d).wellnessMetrics.isSome = d.wellnessMetrics.isSome := by
  cases h : d.wellnessMetrics <;> simp [DayRecord.fill, h]

@[simp] theorem mfill_mateAmount (r : MateRecord) :
    (MateRecord.fill r).mateAmount.getD 0 = r.mateAmount.getD 0 := rfl

@[simp] theorem mfill_sugarLevel (r : MateRecord) :
    (MateRecord.fill r).sugarLevel.getD 0 = r.sugarLevel.getD 0 := rfl

@[simp] theorem mfill_timestamp (r : MateRecord) :
    (MateRecord.fill r).timestamp.getD ("") = r.timestamp.getD ("") := rfl

@[simp] theorem efill_done (r : ExerciseRecord) :
    (ExerciseRecord.fill r).done.getD false = r.done.getD false := rfl

@[simp] theorem efill_duration (r : ExerciseRecord) :
    (ExerciseRecord.fill r).duration.getD 0 = r.duration.getD 0 := rfl

@[simp] theorem efill_type (r : ExerciseRecord) :
    (ExerciseRecord.fill r).type.getD ("none") = r.type.getD ("none") := rfl

@[simp] theorem enfill_level (r : EnergyCheck) :
    (EnergyCheck.fill r).energyLevel.getD 0 = r.energyLevel.getD 0 := rfl

theorem foldl_append_map {α β γ : Type} (f : β → γ) (g : α → List β) (l : List α) (a : List β) :
    (l.foldl (fun acc x => acc ++ g x) a).map f
      = l.foldl (fun acc x => acc ++ (g x).map f) (a.map f) := by
  induction l generalizing a with
  | nil => simp
  | cons x rest ih => simp [ih]

theorem collectMate_fill (daily : List (String × DayRecord)) :
    collectMate (mapFill daily) = (collectMate daily).map MateRecord.fill := by
  simp only [collectMate, mapFill, List.foldl_map, fill_mateRecords]
  rw [foldl_append_map]
  rfl

theorem collectExercise_fill (daily : List (String × DayRecord)) :
    collectExercise (mapFill daily) = (collectExercise daily).map ExerciseRecord.fill := by
  simp only [collectExercise, mapFill, List.foldl_map, fill_exerciseRecords]
  rw [foldl_append_map]
  rfl

theorem collectEnergy_fill (daily : List (String × DayRecord)) :
    collectEnergy (mapFill daily) = (collectEnergy daily).map EnergyCheck.fill := by
  simp only [collectEnergy, mapFill, List.foldl_map, fill_energyChecks]
  rw [foldl_append_map]
  rfl

theorem collectFocus_fill (daily : List (String × DayRecord)) :
    collectFocus (mapFill daily) = collectFocus daily := by
  simp only [collectFocus, mapFill, List.foldl_map, fill_deepFocus]

theorem collectContinuous_fill (daily : List (String × DayRecord)) :
    collectContinuous (mapFill daily) = collectContinuous daily := by
  simp only [collectContinuous, mapFill, List.foldl_map, fill_continuous]

theorem collectMoods_fill (daily : List (String × DayRecord)) :
    collectMoods (mapFill daily) = collectMoods daily := by
  simp only [collectMoods, mapFill, List.foldl_map, fill_reflection]
  apply List.foldl_ext
  intro acc kv _
  cases h : (wellOf kv.2).dailyReflection with
  | none => simp
  | some r => cases hm : r.mood <;> simp [Reflection.fill, hm]

theorem reflectionDaysOf_fill (daily : List (String × DayRecord)) :
    reflectionDaysOf (mapFill daily) = reflectionDaysOf daily := by
  simp only [reflectionDaysOf, mapFill, List.filter_map]
  rw [List.length_map]
  congr 1
  apply List.filter_congr
  intro kv _
  simp [Function.comp]

theorem aggApps_fill (daily : List (String × DayRecord)) :
    aggApps (mapFill daily) = aggApps daily := by
  simp only [aggApps, mapFill, List.foldl_map, fill_appUsage]

end FillLemmas



section FillBlocks

theorem isEmpty_map {α β : Type} (f : α → β) (l : List α) :
    (l.map f).isEmpty = l.isEmpty := by
  cases l <;> rfl

theorem mateDailyTotals_fill (rs : List MateRecord) :
    mateDailyTotals (rs.map MateRecord.fill) = mateDailyTotals rs := by
  simp only [mateDailyTotals, List.foldl_map, mfill_timestamp, mfill_mateAmount]

theorem mateLines_fill (rs : List MateRecord) :
    mateLines (rs.map MateRecord.fill) = mateLines rs := by
  simp [mateLines, isEmpty_map, mateDailyTotals_fill, Function.comp_def]

theorem doneRecords_fill (rs : List ExerciseRecord) :
    doneRecords (rs.map ExerciseRecord.fill) = (doneRecords rs).map ExerciseRecord.fill := by
  simp only [doneRecords, List.filter_map]
  have h : ((fun r : ExerciseRecord => r.done.getD false) ∘ ExerciseRecord.fill)
      = (fun r : ExerciseRecord => r.done.getD false) := by
    funext r
    simp [Function.comp_def]
  rw [h]

theorem intensityCounts_fill (rs : List ExerciseRecord) :
    intensityCounts (rs.map ExerciseRecord.fill) = intensityCounts rs := by
  simp only [intensityCounts, List.foldl_map, efill_type]

theorem exerciseLines_fill (rs : List ExerciseRecord) :
    exerciseLines (rs.map ExerciseRecord.fill) = exerciseLines rs := by
  simp [exerciseLines, doneRecords_fill, intensityCounts_fill, isEmpty_map, Function.comp_def]

theorem energyLines_fill (rs : List EnergyCheck) :
    energyLines (rs.map EnergyCheck.fill) = energyLines rs := by
  simp [energyLines, isEmpty_map, Function.comp_def]

theorem analyzeWellnessData_fill (daily : List (String × DayRecord)) :
    analyzeWellnessData (mapFill daily) = analyzeWellnessData daily := by
  simp only [analyzeWellnessData, collectMate_fill, collectExercise_fill, collectEnergy_fill,
    collectMoods_fill, reflectionDaysOf_fill, mateLines_fill, exerciseLines_fill,
    energyLines_fill]

theorem moodScore_fill (r : Reflection) :
    moodScoreOf ((Reflection.fill r).mood.getD ("balanced"))
      = moodScoreOf (r.mood.getD ("balanced")) := by
  cases hm : r.mood with
  | none =>
    have h1 : (Reflection.fill r).mood.getD ("balanced") = "" := by
      simp [Reflection.fill, hm]
    rw [h1]
    decide
  | some m =>
    have h1 : (Reflection.fill r).mood.getD ("balanced") = m := by
      simp [Reflection.fill, hm]
    simp [h1]

theorem corrEntry_fill (d : DayRecord) :
    corrEntry (DayRecord.fill d) = corrEntry d := by
  have hmood : moodScoreOf (((Option.map Reflection.fill
        (wellOf d).dailyReflection).getD ⟨none, none, none, none⟩).mood.getD ("balanced"))
      = moodScoreOf (((wellOf d).dailyReflection.getD
        ⟨none, none, none, none⟩).mood.getD ("balanced")) := by
    cases h : (wellOf d).dailyReflection with
    | none => rfl
    | some r => simpa using moodScore_fill r
  simp [corrEntry, Function.comp_def, List.any_map, hmood]

theorem corrEntries_fill (daily : List (String × DayRecord)) :
    corrEntries (mapFill daily) = corrEntries daily := by
  simp only [corrEntries, mapFill, List.map_map]
  apply List.map_congr_left
  intro kv _
  simpa [Function.comp_def] using corrEntry_fill kv.2

theorem analyzeCorrelations_fill (daily : List (String × DayRecord)) :
    analyzeCorrelations (mapFill daily) = analyzeCorrelations daily := by
  simp only [analyzeCorrelations, corrEntries_fill]

end FillBlocks

section FillUsage

theorem sumField_mapFill (daily : List (String × DayRecord)) (f : DayRecord → Option ℚ)
    (key : String) (hf : ∀ d, f (DayRecord.fill d) = f d) :
    sumField (mapFill daily) f key = sumField daily f key := by
  induction daily with
  | nil => rfl
  | cons kv rest ih =>
    simp only [mapFill] at ih
    simp [sumField, mapFill, hf, ih]

theorem weekPairs_mapFill (daily : List (String × DayRecord)) :
    weekPairs (mapFill daily) = weekPairs daily := by
  induction daily with
  | nil => rfl
  | cons kv rest ih =>
    simp only [mapFill, List.map_cons] at ih ⊢
    cases h : parseYMD kv.1 with
    | none => simp [weekPairs, h]
    | some ymd => simp [weekPairs, h, ih, fill_totalSessionTime]

theorem weeklyLines_mapFill (daily : List (String × DayRecord)) :
    weeklyLines (mapFill daily) = weeklyLines daily := by
  have hl : (mapFill daily).length = daily.length := List.length_map _ _
  simp only [weeklyLines, weekPairs_mapFill, hl]

theorem appLinesOf_mapFill (daily : List (String × DayRecord)) (ts : ℚ) :
    appLinesOf (mapFill daily) ts = appLinesOf daily ts := by
  simp only [appLinesOf, sortedApps, aggApps_fill]

theorem analyzeUsageData_fill (daily : List (String × DayRecord)) :
    analyzeUsageData (mapFill daily) = analyzeUsageData daily := by
  have he : (mapFill daily).isEmpty = daily.isEmpty := isEmpty_map _ _
  have hl : (mapFill daily).length = daily.length := List.length_map _ _
  simp only [analyzeUsageData, he, hl,
    sumField_mapFill daily (fun d => d.totalSessionTime) ("totalSessionTime") (fun _ => rfl),
    sumField_mapFill daily (fun d => d.totalBreakTime) ("totalBreakTime") (fun _ => rfl),
    sumField_mapFill daily (fun d => d.callTime) ("callTime") (fun _ => rfl),
    collectFocus_fill, collectContinuous_fill, weeklyLines_mapFill, appLinesOf_mapFill]

end FillUsage

section FilterLemmas

theorem filterDays_parses (now : ℚ) (n : Int) (l : List (String × DayRecord))
    (hp : ∀ kv ∈ l, (parseYMD kv.1).isSome) :
    filterDays now n l = Except.ok (l.filter (inRangeB now n)) := by
  induction l with
  | nil => rfl
  | cons kv rest ih =>
    have hk : (parseYMD kv.1).isSome := hp kv (List.mem_cons_self kv rest)
    cases h : parseYMD kv.1 with
    | none => rw [h] at hk; simp at hk
    | some ymd =>
      have ih2 := ih (fun x hx => hp x (List.mem_cons_of_mem kv hx))
      by_cases hr : inRangeB now n kv
      · simp [filterDays, h, ih2, List.filter_cons, hr, Except.map]
      · simp [filterDays, h, ih2, List.filter_cons, hr, Except.map]

theorem filter_inRange_idem (now : ℚ) (n : Int) (l : List (String × DayRecord)) :
    (l.filter (inRangeB now n)).filter (inRangeB now n) = l.filter (inRangeB now n) := by
  rw [List.filter_filter]
  have h : (fun a => inRangeB now n a && inRangeB now n a) = inRangeB now n := by
    funext a
    rw [Bool.and_self]
  rw [h]

theorem runAnalysis_filter (args : Args) (daily : List (String × DayRecord)) (now : ℚ)
    (n : Int) (hd : args.days = some n) (hn : n ≠ 0)
    (hp : ∀ kv ∈ daily, (parseYMD kv.1).isSome) :
    runAnalysis args ⟨some daily⟩ now
      = runAnalysis args ⟨some (daily.filter (inRangeB now n))⟩ now := by
  have h1 : filterDays now n daily = Except.ok (daily.filter (inRangeB now n)) :=
    filterDays_parses now n daily hp
  have h2 : filterDays now n (daily.filter (inRangeB now n))
      = Except.ok (daily.filter (inRangeB now n)) := by
    rw [filterDays_parses now n _ (fun kv hkv => hp kv (List.mem_of_mem_filter hkv)),
      filter_inRange_idem]
  have hstep : ∀ l : List (String × DayRecord), filterStep args l now
      = (filterDays now n l).map (fun f => (f, [Line.filterNote n f.length])) := by
    intro l
    simp [filterStep, hd, hn]
  simp only [runAnalysis, Option.getD_some, hstep, h1, h2, Except.map]

end FilterLemmas

section NowIndependence

theorem runAnalysis_now (args : Args) (data : UsageExport) (now1 now2 : ℚ)
    (h : args.days = none ∨ args.days = some 0) :
    runAnalysis args data now1 = runAnalysis args data now2 := by
  have hstep : ∀ now, filterStep args (data.dailyData.getD []) now
      = Except.ok (data.dailyData.getD [], ([] : List Line)) := by
    intro now
    rcases h with h | h <;> simp [filterStep, h]
  simp only [runAnalysis, hstep]

theorem runMain_now (args : Args) (file : FileOutcome) (now1 now2 : ℚ)
    (h : args.days = none ∨ args.days = some 0) :
    runMain args file now1 = runMain args file now2 := by
  cases file with
  | notFound => rfl
  | invalidJson => rfl
  | ok data => simp only [runMain, runAnalysis_now args data now1 now2 h]

end NowIndependence

section ErrorMessages

theorem ebind_ok {ε α β : Type} (a : α) (f : α → Except ε β) :
    (Except.ok a >>= f) = f a := rfl

theorem ebind_err {ε α β : Type} (e : ε) (f : α → Except ε β) :
    ((Except.error e : Except ε α) >>= f) = Except.error e := rfl

/-- Every error message the analysis body can raise. -/
def errSetOf : List String :=
  ["KeyError: totalSessionTime", "KeyError: totalBreakTime", "KeyError: callTime",
   "KeyError: duration", strptimeMsg, "NameError: name avg_energy_high is not defined"]

theorem sumField_error (l : List (String × DayRecord)) (f : DayRecord → Option ℚ)
    (key : String) (e : String) (h : sumField l f key = Except.error e) :
    e = "KeyError: " ++ key := by
  induction l with
  | nil => simp [sumField] at h
  | cons kv rest ih =>
    cases hf : f kv.2 with
    | none =>
      simp [sumField, req, hf, ebind_ok, ebind_err] at h
      exact h.symm
    | some v =>
      cases hs : sumField rest f key with
      | error e2 =>
        simp [sumField, req, hf, hs, ebind_ok, ebind_err] at h
        exact ih (h ▸ hs)
      | ok s => simp [sumField, req, hf, hs, ebind_ok, ebind_err] at h

theorem durationsOf_error (ss : List FocusSession) (e : String)
    (h : durationsOf ss = Except.error e) : e = "KeyError: duration" := by
  induction ss with
  | nil => simp [durationsOf] at h
  | cons s rest ih =>
    cases hf : s.duration with
    | none =>
      simp [durationsOf, req, hf, ebind_ok, ebind_err] at h
      exact h.symm
    | some v =>
      cases hs : durationsOf rest with
      | error e2 =>
        simp [durationsOf, req, hf, hs, ebind_ok, ebind_err] at h
        exact ih (h ▸ hs)
      | ok ds => simp [durationsOf, req, hf, hs, ebind_ok, ebind_err] at h

theorem focusLines_error (ss : List FocusSession) (e : String)
    (h : focusLines ss = Except.error e) : e = "KeyError: duration" := by
  by_cases he : ss.isEmpty
  · simp [focusLines, he] at h
  · cases hd : durationsOf ss with
    | error e2 =>
      simp [focusLines, he, hd, ebind_ok, ebind_err] at h
      exact durationsOf_error ss e (h ▸ hd)
    | ok ds => simp [focusLines, he, hd, ebind_ok, ebind_err] at h

theorem patternLines_error (ss : List FocusSession) (e : String)
    (h : patternLines ss = Except.error e) : e = "KeyError: duration" := by
  by_cases he : ss.isEmpty
  · simp [patternLines, he] at h
  · cases hd : durationsOf ss with
    | error e2 =>
      simp [patternLines, he, hd, ebind_ok, ebind_err] at h
      exact durationsOf_error ss e (h ▸ hd)
    | ok ds => simp [patternLines, he, hd, ebind_ok, ebind_err] at h

theorem weekPairs_error (l : List (String × DayRecord)) (e : String)
    (h : weekPairs l = Except.error e) :
    e = strptimeMsg ∨ e = "KeyError: totalSessionTime" := by
  induction l with
  | nil => simp [weekPairs] at h
  | cons kv rest ih =>
    cases hp : parseYMD kv.1 with
    | none =>
      simp [weekPairs, hp, ebind_ok, ebind_err] at h
      exact Or.inl h.symm
    | some ymd =>
      cases hf : kv.2.totalSessionTime with
      | none =>
        simp [weekPairs, hp, req, hf, ebind_ok, ebind_err] at h
        exact Or.inr h.symm
      | some v =>
        cases hs : weekPairs rest with
        | error e2 =>
          simp [weekPairs, hp, req, hf, hs, ebind_ok, ebind_err] at h
          exact ih (h ▸ hs)
        | ok ps => simp [weekPairs, hp, req, hf, hs, ebind_ok, ebind_err] at h

theorem weeklyLines_error (daily : List (String × DayRecord)) (e : String)
    (h : weeklyLines daily = Except.error e) :
    e = strptimeMsg ∨ e = "KeyError: totalSessionTime" := by
  by_cases hn : 7 ≤ daily.length
  · cases hp : weekPairs daily with
    | error e2 =>
      simp [weeklyLines, hn, hp, ebind_ok, ebind_err] at h
      exact weekPairs_error daily e (h ▸ hp)
    | ok ps => simp [weeklyLines, hn, hp, ebind_ok, ebind_err] at h
  · simp [weeklyLines, hn] at h

theorem analyzeUsageData_error (daily : List (String × DayRecord)) (e : String)
    (h : analyzeUsageData daily = Except.error e) : e ∈ errSetOf := by
  by_cases hd : daily.isEmpty
  · simp [analyzeUsageData, hd, ebind_ok, ebind_err] at h
  · cases h1 : sumField daily (fun d => d.totalSessionTime) ("totalSessionTime") with
    | error e1 =>
      simp [analyzeUsageData, hd, ebind_ok, ebind_err, h1] at h
      have := sumField_error daily _ _ e (h ▸ h1)
      simp [errSetOf, this]
    | ok ts =>
      cases h2 : sumField daily (fun d => d.totalBreakTime) ("totalBreakTime") with
      | error e2 =>
        simp [analyzeUsageData, hd, ebind_ok, ebind_err, h1, h2] at h
        have := sumField_error daily _ _ e (h ▸ h2)
        simp [errSetOf, this]
      | ok tb =>
        cases h3 : sumField daily (fun d => d.callTime) ("callTime") with
        | error e3 =>
          simp [analyzeUsageData, hd, ebind_ok, ebind_err, h1, h2, h3] at h
          have := sumField_error daily _ _ e (h ▸ h3)
          simp [errSetOf, this]
        | ok tc =>
          cases h4 : focusLines (collectFocus daily) with
          | error e4 =>
            simp [analyzeUsageData, hd, ebind_ok, ebind_err, h1, h2, h3, h4] at h
            have := focusLines_error _ e (h ▸ h4)
            simp [errSetOf, this]
          | ok fL =>
            cases h5 : patternLines (collectContinuous daily) with
            | error e5 =>
              simp [analyzeUsageData, hd, ebind_ok, ebind_err, h1, h2, h3, h4, h5] at h
              have := patternLines_error _ e (h ▸ h5)
              simp [errSetOf, this]
            | ok pL =>
              cases h6 : weeklyLines daily with
              | error e6 =>
                simp [analyzeUsageData, hd, ebind_ok, ebind_err, h1, h2, h3, h4, h5, h6] at h
                rcases weeklyLines_error daily e (h ▸ h6) with h7 | h7 <;>
                  simp [errSetOf, h7]
              | ok wL => simp [analyzeUsageData, hd, ebind_ok, ebind_err, h1, h2, h3, h4, h5, h6] at h

theorem analyzeCorrelations_error (daily : List (String × DayRecord)) (e : String)
    (h : analyzeCorrelations daily = Except.error e) :
    e = "NameError: name avg_energy_high is not defined" := by
  unfold analyzeCorrelations at h
  by_cases h3 : 3 ≤ (corrEntries daily).length
  · by_cases hl : (lowSet (corrEntries daily)).isEmpty = true
    · simp [h3, hl] at h
    · by_cases hh : (highSet (corrEntries daily)).isEmpty = true
      · simp [h3, hl, hh] at h
        exact h.symm
      · simp [h3, hl, hh] at h
  · simp [h3] at h

theorem filterDays_error (now : ℚ) (n : Int) (l : List (String × DayRecord)) (e : String)
    (h : filterDays now n l = Except.error e) : e = strptimeMsg := by
  induction l with
  | nil => simp [filterDays] at h
  | cons kv rest ih =>
    cases hp : parseYMD kv.1 with
    | none =>
      simp [filterDays, hp] at h
      exact h.symm
    | some ymd =>
      cases hr : filterDays now n rest with
      | error e2 =>
        simp [filterDays, hp, hr, Except.map] at h
        exact ih (h ▸ hr)
      | ok f => simp [filterDays, hp, hr, Except.map] at h

theorem dispatchModes_error (args : Args) (daily : List (String × DayRecord))
    (note : List Line) (e : String) (h : dispatchModes args daily note = Except.error e) :
    e ∈ errSetOf := by
  by_cases hw : args.wellnessOnly
  · simp [dispatchModes, hw] at h
  · by_cases hc : args.correlations
    · by_cases hwd : hasWellnessData daily
      · cases hcr : analyzeCorrelations daily with
        | error e2 =>
          simp [dispatchModes, hw, hc, hwd, hcr, ebind_ok, ebind_err] at h
          have := analyzeCorrelations_error daily e (h ▸ hcr)
          simp [errSetOf, this]
        | ok c => simp [dispatchModes, hw, hc, hwd, hcr, ebind_ok, ebind_err] at h
      · simp [dispatchModes, hw, hc, hwd] at h
    · cases hu : analyzeUsageData daily with
      | error e2 =>
        simp [dispatchModes, hw, hc, hu, ebind_ok, ebind_err] at h
        exact analyzeUsageData_error daily e (h ▸ hu)
      | ok u =>
        by_cases hwd : hasWellnessData daily
        · cases hcr : analyzeCorrelations daily with
          | error e2 =>
            simp [dispatchModes, hw, hc, hu, hwd, hcr, ebind_ok, ebind_err] at h
            have := analyzeCorrelations_error daily e (h ▸ hcr)
            simp [errSetOf, this]
          | ok c => simp [dispatchModes, hw, hc, hu, hwd, hcr, ebind_ok, ebind_err] at h
        · simp [dispatchModes, hw, hc, hu, hwd, ebind_ok, ebind_err] at h

theorem runAnalysis_error (args : Args) (data : UsageExport) (now : ℚ) (e : String)
    (h : runAnalysis args data now = Except.error e) : e ∈ errSetOf := by
  unfold runAnalysis at h
  cases hs : filterStep args (data.dailyData.getD []) now with
  | error e2 =>
    rw [hs] at h
    rw [ebind_err] at h
    cases h
    rcases hdays : args.days with _ | n
    · simp [filterStep, hdays] at hs
    · by_cases hn : n ≠ 0
      · simp only [filterStep, hdays, hn, if_pos] at hs
        cases hf : filterDays now n (data.dailyData.getD []) with
        | error e3 =>
          rw [hf] at hs
          simp [Except.map] at hs
          rw [if_neg hn] at hs
          have := filterDays_error now n (data.dailyData.getD []) e3 hf
          cases hs
          simp [errSetOf, this]
        | ok f =>
          rw [hf] at hs
          simp [Except.map] at hs
          rw [if_neg hn] at hs
          cases hs
      · simp [filterStep, hdays, hn] at hs
  | ok start =>
    rw [hs] at h
    rw [ebind_ok] at h
    exact dispatchModes_error args _ _ e h

end ErrorMessages

section ClaimInputs

/-- A day record with only a session time. -/
def simpleDay (q : ℚ) : DayRecord := ⟨some q, none, none, none, none, none, none⟩

/-- A day record with session, break and call times. -/
def statDay (q : ℚ) : DayRecord := ⟨some q, some 0, some 0, none, none, none, none⟩

/-- A day record with a session time and a list of energy checks. -/
def energyDay (q : ℚ) (checks : List ℚ) : DayRecord :=
  ⟨some q, none, none, none, none, none,
   some ⟨none, none, some (checks.map (fun x => ⟨some x⟩)), none⟩⟩

/-- Two days, both carrying wellness data. -/
def dailyTwoWell : List (String × DayRecord) :=
  [("2024-08-14", energyDay 100 [5]), ("2024-08-15", energyDay 50 [5])]

/-- A command line with only the `--days` flag set. -/
def argsDays (n : Int) : Args := ⟨"data.json", false, false, false, some n⟩

/-- A command line with no optional flag set. -/
def argsPlain : Args := ⟨"data.json", false, false, false, none⟩

/-- Two days at the start of 1970, nine days apart. -/
def dailyC3 : List (String × DayRecord) :=
  [("1970-01-01", statDay 100), ("1970-01-10", statDay 7)]

/-- The same two-day shape, used for the determinism claim. -/
def dailyC5 : List (String × DayRecord) :=
  [("1970-01-01", statDay 100), ("1970-01-10", statDay 7)]

/-- The analysis body raised an exception on the parsed file. -/
def analysisFails (args : Args) (file : FileOutcome) (now : ℚ) : Prop :=
  ∃ data e, file = FileOutcome.ok data ∧ runAnalysis args data now = Except.error e

theorem oneLine_append (a b : String) : oneLine (a ++ b) = (oneLine a && oneLine b) := by
  simp [oneLine, String.toList]

theorem errSet_oneLine : ∀ e ∈ errSetOf, oneLine ("Error: " ++ e) = true := by decide

end ClaimInputs

/-- C1 counterexample: a `dailyData` with two days carrying wellness data is
below the three-day gate, yet the correlation report still prints its header,
so the operation does not produce no output at all. -/
theorem C1_counterexample :
    analyzeCorrelations dailyTwoWell = Except.ok [Line.corrHeader]
      ∧ [Line.corrHeader] ≠ ([] : List Line)
      ∧ (dailyTwoWell.filter (fun kv => kv.2.wellnessMetrics.isSome)).length < 3 := by
  decide

/-- C1 amended: with fewer than 3 days in `dailyData` (the gate counts every
day, not only days with wellness data) the correlation report consists of
exactly its header and nothing else. -/
theorem C1_theorem (daily : List (String × DayRecord)) (h : daily.length < 3) :
    analyzeCorrelations daily = Except.ok [Line.corrHeader] := by
  unfold analyzeCorrelations
  rw [if_neg]
  simp only [corrEntries, List.length_map]
  omega

/-- C1 witness: the amended claim evaluated on the empty day mapping. -/
theorem C1_witness :
    analyzeCorrelations ([] : List (String × DayRecord)) = Except.ok [Line.corrHeader] :=
  C1_theorem [] (by decide)

/-- C2 counterexample: a day record with no `totalSessionTime` makes the
summary analysis raise a `KeyError`, so the run ends with the error message
and exit code 1 instead of treating the missing field as zero. -/
theorem C2_counterexample :
    runMain argsPlain
        (FileOutcome.ok ⟨some [("2024-01-01", (⟨none, none, none, none, none, none, none⟩ : DayRecord))]⟩) 0
      = ([Line.errOther ("KeyError: totalSessionTime")], 1) := by
  decide

/-- C2 amended: every semantically optional field (appUsage, the session
lists, wellnessMetrics and everything nested inside it) is treated as
zero/empty by every analysis operation: replacing each missing optional
field by its explicit default changes no output.  The day-level time fields
and session durations are required by the summary analysis and are left
untouched by the defaulting map. -/
theorem C2_theorem (daily : List (String × DayRecord)) :
    analyzeUsageData (mapFill daily) = analyzeUsageData daily
      ∧ analyzeWellnessData (mapFill daily) = analyzeWellnessData daily
      ∧ analyzeCorrelations (mapFill daily) = analyzeCorrelations daily :=
  ⟨analyzeUsageData_fill daily, analyzeWellnessData_fill daily, analyzeCorrelations_fill daily⟩

unseal Rat.add Rat.sub Rat.mul Rat.inv in
/-- C3 counterexample: with `--days 0` the filter is skipped (`if args.days:`
is false), so a date far outside the last-0-days range still contributes its
full session time to the totals. -/
theorem C3_counterexample :
    inRangeB 8640000 0 ("1970-01-01", statDay 100) = false
      ∧ runMain (argsDays 0) (FileOutcome.ok ⟨some [("1970-01-01", statDay 100)]⟩) 8640000
        = ([Line.usageHeader, Line.basicStats 1 100 0 0, Line.avgDaily 100,
            Line.noWellnessFull], 0) := by
  decide

/-- C3 amended: with `--days N` for nonzero `N` and well-formed date keys,
the run output equals the output on the day mapping restricted to the
in-range dates, and every date the filter keeps parses to a day at or after
`now` minus `N` days; hence a date outside that range contributes to no
aggregate. -/
theorem C3_theorem (args : Args) (daily : List (String × DayRecord)) (now : ℚ) (n : Int)
    (hd : args.days = some n) (hn : n ≠ 0)
    (hp : ∀ kv ∈ daily, (parseYMD kv.1).isSome) :
    runMain args (FileOutcome.ok ⟨some daily⟩) now
        = runMain args (FileOutcome.ok ⟨some (daily.filter (inRangeB now n))⟩) now
      ∧ ∀ kv ∈ daily.filter (inRangeB now n), ∃ ymd, parseYMD kv.1 = some ymd
          ∧ now - (n : ℚ) * 86400 ≤ ((daysFromCivil ymd.1 ymd.2.1 ymd.2.2 : Int) : ℚ) * 86400 := by
  constructor
  · simp only [runMain, runAnalysis_filter args daily now n hd hn hp]
  · intro kv hkv
    have hm := List.mem_filter.1 hkv
    cases hpk : parseYMD kv.1 with
    | none => simp [inRangeB, hpk] at hm
    | some ymd =>
      refine ⟨ymd, rfl, ?_⟩
      have hb := hm.2
      rw [inRangeB, hpk] at hb
      exact of_decide_eq_true hb

/-- C3 witness: the amended claim evaluated with `--days 7` on two days nine
days apart, ten days after the epoch. -/
theorem C3_witness :
    runMain (argsDays 7) (FileOutcome.ok ⟨some dailyC3⟩) 864000
        = runMain (argsDays 7) (FileOutcome.ok ⟨some (dailyC3.filter (inRangeB 864000 7))⟩) 864000
      ∧ ∀ kv ∈ dailyC3.filter (inRangeB 864000 7), ∃ ymd, parseYMD kv.1 = some ymd
          ∧ 864000 - ((7 : Int) : ℚ) * 86400
              ≤ ((daysFromCivil ymd.1 ymd.2.1 ymd.2.2 : Int) : ℚ) * 86400 :=
  C3_theorem (argsDays 7) dailyC3 864000 7 rfl (by decide) (by decide)

/-- C4: the run exits with code 1 exactly when the file is missing, the JSON
is invalid, or the analysis body raises; the code is 0 otherwise, and on
every failure the printed message is a single error line without a newline
(given that the file path itself has none). -/
theorem C4_theorem (args : Args) (file : FileOutcome) (now : ℚ) :
    ((runMain args file now).2 = 0 ∨ (runMain args file now).2 = 1)
      ∧ ((runMain args file now).2 = 1
          ↔ (file = FileOutcome.notFound ∨ file = FileOutcome.invalidJson
              ∨ analysisFails args file now))
      ∧ ((runMain args file now).2 = 1 → oneLine args.file = true →
          ∃ l s, (runMain args file now).1 = [l] ∧ errRender l = some s ∧ oneLine s = true) := by
  cases file with
  | notFound =>
    refine ⟨Or.inr rfl, ⟨fun _ => Or.inl rfl, fun _ => rfl⟩, fun _ hf => ⟨_, _, rfl, rfl, ?_⟩⟩
    simp only [oneLine_append, hf]
    decide
  | invalidJson =>
    refine ⟨Or.inr rfl, ⟨fun _ => Or.inr (Or.inl rfl), fun _ => rfl⟩,
      fun _ hf => ⟨_, _, rfl, rfl, ?_⟩⟩
    simp only [oneLine_append, hf]
    decide
  | ok data =>
    cases hr : runAnalysis args data now with
    | ok lines =>
      have hzero : (runMain args (FileOutcome.ok data) now).2 = 0 := by simp [runMain, hr]
      refine ⟨Or.inl hzero, ⟨?_, ?_⟩, ?_⟩
      · intro h0
        rw [hzero] at h0
        omega
      · intro hR
        exfalso
        rcases hR with h | h | h
        · simp at h
        · simp at h
        · obtain ⟨d2, e, hdd, he⟩ := h
          injection hdd with hd2
          rw [← hd2, hr] at he
          cases he
      · intro h0
        rw [hzero] at h0
        omega
    | error e =>
      have hone : (runMain args (FileOutcome.ok data) now).2 = 1 := by simp [runMain, hr]
      have hout : (runMain args (FileOutcome.ok data) now).1 = [Line.errOther e] := by
        simp [runMain, hr]
      refine ⟨Or.inr hone, ⟨fun _ => Or.inr (Or.inr ⟨data, e, rfl, hr⟩), fun _ => hone⟩,
        fun _ _ => ?_⟩
      exact ⟨Line.errOther e, _, hout, rfl,
        errSet_oneLine e (runAnalysis_error args data now e hr)⟩

/-- C4 witness: the exit-code characterization evaluated on a missing file. -/
theorem C4_witness :
    (runMain argsPlain FileOutcome.notFound 0).2 = 1
      ∧ ∃ l s, (runMain argsPlain FileOutcome.notFound 0).1 = [l]
          ∧ errRender l = some s ∧ oneLine s = true := by
  have h := C4_theorem argsPlain FileOutcome.notFound 0
  have h1 := h.2.1.mpr (Or.inl rfl)
  exact ⟨h1, h.2.2 h1 (by decide)⟩

unseal Rat.add Rat.sub Rat.mul Rat.inv in
/-- C5 counterexample: with `--days 7`, running twice on the same file and
the same flags at two different times produces different output, so the
output is not a pure function of the inputs alone. -/
theorem C5_counterexample :
    runMain (argsDays 7) (FileOutcome.ok ⟨some dailyC5⟩) 0
      ≠ runMain (argsDays 7) (FileOutcome.ok ⟨some dailyC5⟩) 864000 := by
  decide

/-- C5 amended: the output is a pure function of the flags, the file
contents and the current time; when `--days` is absent (or 0, where the
filter is skipped) the current time is unread and two runs at any two times
produce identical output. -/
theorem C5_theorem (args : Args) (file : FileOutcome) (now1 now2 : ℚ)
    (h : args.days = none ∨ args.days = some 0) :
    runMain args file now1 = runMain args file now2 :=
  runMain_now args file now1 now2 h

/-- C5 witness: the amended claim evaluated without the days flag at two
distinct times. -/
theorem C5_witness :
    runMain argsPlain (FileOutcome.ok ⟨some dailyC5⟩) 0
      = runMain argsPlain (FileOutcome.ok ⟨some dailyC5⟩) 999 :=
  C5_theorem argsPlain (FileOutcome.ok ⟨some dailyC5⟩) 0 999 (Or.inl rfl)

unseal Rat.add Rat.sub Rat.mul Rat.inv in
/-- C6: the summary aggregates appUsage across all days into one mapping
(the aggregated entry of an app is the sum of its per-day times), sorts it
descending by total time, prints at most 10 app lines, computes percentages
with a zero default, and on the single mapping of the spec example prints
the simplified name Tool at 100 percent. -/
theorem C6_theorem (daily : List (String × DayRecord)) (ts : ℚ) :
    List.Sorted appGE (sortedApps daily)
      ∧ (sortedApps daily).Perm (aggApps daily)
      ∧ (∀ a, lookupTotal (aggApps daily) a = totalAppTime daily a)
      ∧ (appLinesOf daily ts).length ≤ 11
      ∧ appPct 5 0 = 0
      ∧ analyzeUsageData [("2024-01-01",
          (⟨some 7200, some 0, some 0, some [("com.acme.Tool", 7200)], none, none, none⟩ : DayRecord))]
        = Except.ok [Line.usageHeader, Line.basicStats 1 7200 0 0, Line.avgDaily 7200,
            Line.topAppsHeader, Line.appLine 1 ("Tool") 7200 100] := by
  refine ⟨sortedApps_sorted daily, sortedApps_perm daily, fun a => aggApps_lookup daily a,
    ?_, by decide, by decide⟩
  by_cases he : (aggApps daily).isEmpty
  · simp [appLinesOf, he]
  · simp only [appLinesOf, he, Bool.false_eq_true, if_false, List.length_cons,
      List.length_map, List.enum_length, List.length_take]
    omega

/-- The exercise records of the spec example for C7. -/
def recordsC7 : List ExerciseRecord :=
  [⟨some true, some 30, none⟩, ⟨some false, none, none⟩]

unseal Rat.add Rat.sub Rat.mul Rat.inv in
/-- C7: for nonempty exercise records the wellness report prints success
rate = done records over all records (as a percentage) and, when any record
is done, the average duration over the done records only; on the spec
example this yields 50 percent and 30 minutes. -/
theorem C7_theorem (records : List ExerciseRecord) (h : records ≠ []) :
    Line.exerciseBlock records.length (doneRecords records).length
        (((doneRecords records).length : ℚ) / (records.length : ℚ) * 100) ∈ exerciseLines records
      ∧ (0 < (doneRecords records).length →
          Line.exerciseAvgDur (((doneRecords records).map (fun r => r.duration.getD 0)).sum
            / ((doneRecords records).length : ℚ)) ∈ exerciseLines records)
      ∧ exerciseLines recordsC7
          = [Line.exerciseBlock 2 1 50, Line.exerciseAvgDur 30, Line.intensityHeader,
             Line.intensityLine ("none") 2] := by
  have he : records.isEmpty = false := by
    cases records with
    | nil => exact absurd rfl h
    | cons a l => rfl
  refine ⟨?_, ?_, by decide⟩
  · simp [exerciseLines, he]
  · intro hd
    simp [exerciseLines, he, hd]

unseal Rat.add Rat.sub Rat.mul Rat.inv in
/-- C7 witness: the claim evaluated on the two-record spec example. -/
theorem C7_witness :
    Line.exerciseBlock recordsC7.length (doneRecords recordsC7).length
        (((doneRecords recordsC7).length : ℚ) / (recordsC7.length : ℚ) * 100)
          ∈ exerciseLines recordsC7
      ∧ (0 < (doneRecords recordsC7).length →
          Line.exerciseAvgDur (((doneRecords recordsC7).map (fun r => r.duration.getD 0)).sum
            / ((doneRecords recordsC7).length : ℚ)) ∈ exerciseLines recordsC7)
      ∧ exerciseLines recordsC7
          = [Line.exerciseBlock 2 1 50, Line.exerciseAvgDur 30, Line.intensityHeader,
             Line.intensityLine ("none") 2] :=
  C7_theorem recordsC7 (by decide)

/-- C8 counterexample: an exercise record whose type string is swimming is
tallied into a fifth, newly created bucket, which is also printed, so the
distribution is not confined to the four fixed buckets. -/
theorem C8_counterexample :
    Line.intensityLine ("swimming") 1
        ∈ exerciseLines [(⟨some false, none, some ("swimming")⟩ : ExerciseRecord)]
      ∧ ("swimming") ∈ keysOf (intensityCounts [(⟨some false, none, some ("swimming")⟩ : ExerciseRecord)])
      ∧ ("swimming") ∉ (["none", "light", "moderate", "intense"] : List String) := by
  decide

/-- C8 amended: every record is tallied exactly once under its type string
(defaulting to none); the four fixed buckets always exist, and every bucket
key is one of the four or the type string of some record, so an unrecognized
type creates an extra bucket instead of being forced into the four. -/
theorem C8_theorem (rs : List ExerciseRecord) :
    valsSum (intensityCounts rs) = rs.length
      ∧ (∀ x ∈ keysOf (intensityCounts rs),
          x ∈ (["none", "light", "moderate", "intense"] : List String)
            ∨ x ∈ rs.map (fun r => r.type.getD ("none")))
      ∧ ∀ x ∈ (["none", "light", "moderate", "intense"] : List String),
          x ∈ keysOf (intensityCounts rs) :=
  ⟨intensity_total rs, fun x hx => intensity_keys rs x hx, fun x hx => intensity_fixed rs x hx⟩

/-- C8 witness: the amended claim evaluated on a single light record. -/
theorem C8_witness :
    valsSum (intensityCounts [(⟨some true, some 10, some ("light")⟩ : ExerciseRecord)])
        = ([(⟨some true, some 10, some ("light")⟩ : ExerciseRecord)]).length
      ∧ ("light") ∈ keysOf (intensityCounts [(⟨some true, some 10, some ("light")⟩ : ExerciseRecord)]) :=
  ⟨(C8_theorem [⟨some true, some 10, some ("light")⟩]).1,
   (C8_theorem [⟨some true, some 10, some ("light")⟩]).2.2 ("light") (by decide)⟩

/-- Three days with equal session times. -/
def dailyAllEq : List (String × DayRecord) :=
  [("a", simpleDay 5), ("b", simpleDay 5), ("c", simpleDay 5)]

/-- Three days whose middle session time sits between the two thresholds. -/
def dailyMid : List (String × DayRecord) :=
  [("a", simpleDay 1), ("b", simpleDay 10), ("c", simpleDay 19)]

/-- Three days with negative session times whose mean is negative. -/
def dailyNeg : List (String × DayRecord) :=
  [("a", simpleDay (-80)), ("b", simpleDay (-110)), ("c", simpleDay (-110))]

unseal Rat.add Rat.sub Rat.mul Rat.inv in
/-- C9: the high set is exactly the days with session time strictly above
the mean and the low set exactly those strictly below 7/10 of the mean; the
two sets are not complementary (a middle day is in neither), both are empty
when every session time is equal, and with negative session times a day can
be in both. -/
theorem C9_theorem (daily : List (String × DayRecord)) (c : CorrEntry) :
    (c ∈ highSet (corrEntries daily)
        ↔ c ∈ corrEntries daily ∧ sessionMean (corrEntries daily) < c.session_time)
      ∧ (c ∈ lowSet (corrEntries daily)
          ↔ c ∈ corrEntries daily
              ∧ c.session_time < sessionMean (corrEntries daily) * (7 / 10))
      ∧ (highSet (corrEntries dailyAllEq) = [] ∧ lowSet (corrEntries dailyAllEq) = [])
      ∧ (corrEntry (simpleDay 10) ∉ highSet (corrEntries dailyMid)
          ∧ corrEntry (simpleDay 10) ∉ lowSet (corrEntries dailyMid))
      ∧ (corrEntry (simpleDay (-80)) ∈ highSet (corrEntries dailyNeg)
          ∧ corrEntry (simpleDay (-80)) ∈ lowSet (corrEntries dailyNeg)) := by
  refine ⟨?_, ?_, by decide, by decide, by decide⟩
  · simp [highSet, List.mem_filter]
  · simp [lowSet, List.mem_filter]

/-- A day with a session time and no energy checks. -/
def dayNoChecks : DayRecord := energyDay 100 []

/-- Three days where only the first is high-productivity, with one energy
check of level 8. -/
def dailyC10A : List (String × DayRecord) :=
  [("a", energyDay 100 [8]), ("b", simpleDay 0), ("c", simpleDay 0)]

/-- The same days plus a high-productivity day with no energy checks. -/
def dailyC10B : List (String × DayRecord) :=
  [("a", energyDay 100 [8]), ("b", simpleDay 0), ("c", simpleDay 0), ("d", dayNoChecks)]

unseal Rat.add Rat.sub Rat.mul Rat.inv in
/-- C10: the per-day average energy divides by the maximum of the check
count and 1, so a day with no checks yields average energy 0 instead of an
error; membership of a day in the high set depends only on its session time,
and concretely adding a zero-check high-productivity day lowers the reported
average energy of the high set. -/
theorem C10_theorem (d : DayRecord) :
    ((wellOf d).energyChecks.getD [] = [] → (corrEntry d).avg_energy = 0)
      ∧ 1 ≤ max ((wellOf d).energyChecks.getD []).length 1
      ∧ (∀ cs : List CorrEntry,
          corrEntry d ∈ highSet cs ↔ corrEntry d ∈ cs ∧ sessionMean cs < (corrEntry d).session_time)
      ∧ avgEnergyOf (highSet (corrEntries dailyC10B))
          < avgEnergyOf (highSet (corrEntries dailyC10A)) := by
  refine ⟨?_, le_max_right _ _, ?_, by decide⟩
  · intro h
    simp [corrEntry, h]
  · intro cs
    simp [highSet, List.mem_filter]

unseal Rat.add Rat.sub Rat.mul Rat.inv in
/-- C10 witness: the zero-check day evaluated concretely. -/
theorem C10_witness :
    (corrEntry dayNoChecks).avg_energy = 0
      ∧ avgEnergyOf (highSet (corrEntries dailyC10B))
          < avgEnergyOf (highSet (corrEntries dailyC10A)) :=
  ⟨(C10_theorem dayNoChecks).1 rfl, (C10_theorem dayNoChecks).2.2.2⟩
